import Mathlib

/-!
Verification of the element-resolution and wait engine of an Appium-based
UI test-automation framework.

The development shallowly embeds, in Lean, the spec-relevant code:

* the locator-strategy translation tables of `WaitUtil.wait_for_element`,
  `WaitUtil.wait_for_element_to_disappear`, `WaitUtil.wait_for_clickable`
  (src/utils/wait_util.py) and `BasePage._convert_to_selenium_by`
  (src/pages/base_page.py);
* the three-stage wait waterfall `WaitUtil.wait_for_element`;
* `BasePage.find_element`, `BasePage.is_element_present`,
  `BasePage.tap_element`, `BasePage.send_text`;
* the per-page candidate-locator fallback loops (`HomePage.tap_hotels_tab`,
  `SearchPage.get_search_results`, `HomePage.enter_search_text`).

Time model: discrete ticks of one poll interval (0.5 s, the default
`poll_frequency`); `secs n` converts `n` seconds to ticks.  A driver is a
time-indexed oracle: `find t by loc` is what the DOM query yields at tick
`t` (this absorbs scroll/refresh side effects, which advance time).
Python exceptions are embedded as data (`QueryRes.error`, `WOut.exn`,
`TypeOut.raised`, `TapOut.raised`), so every embedded function is total.
-/

namespace AppiumSpec

/-- Conversion of `n` seconds to half-second poll ticks. -/
def secs (n : Nat) : Nat := 2 * n

/-- The concrete strategy tokens of the driver (`selenium.webdriver.common.by.By`)
that appear as values of the `by_mapping` dictionaries in the source. -/
inductive By where
  | id
  | xpath
  | cssSelector
  | className
  | tagName
  | name
  | linkText
  | partialLinkText
deriving DecidableEq, Repr

/-- Python's `str.lower()` on the ASCII locator tags used by the framework,
modelled character by character (kernel-reducible, unlike `String.toLower`). -/
def pyLower (s : String) : String := String.mk (s.data.map Char.toLower)

/-- A dictionary lookup with the hard-coded xpath default:
`by_mapping.get(by.lower(), By.XPATH)`. -/
def lookupBy : List (String × By) → String → By
  | [], _ => By.xpath
  | (k, v) :: rest, t => if t = k then v else lookupBy rest t

/-- The eight-entry `by_mapping` dictionary of `WaitUtil.wait_for_element`
(src/utils/wait_util.py lines 34-43). -/
def wuByTable : List (String × By) :=
  [("id", By.id), ("xpath", By.xpath), ("css_selector", By.cssSelector),
   ("class_name", By.className), ("tag_name", By.tagName), ("name", By.name),
   ("link_text", By.linkText), ("partial_link_text", By.partialLinkText)]

/-- The lookup `by_mapping.get(by.lower(), By.XPATH)` in `WaitUtil.wait_for_element`. -/
def wuByMapping (tag : String) : By := lookupBy wuByTable (pyLower tag)

/-- The eight-entry `by_mapping` dictionary of `BasePage._convert_to_selenium_by`
(src/pages/base_page.py lines 113-125); textually the same table as
`wait_for_element`'s. -/
def convertToSeleniumBy (tag : String) : By := lookupBy wuByTable (pyLower tag)

/-- The six-entry `by_mapping` dictionary of `WaitUtil.wait_for_clickable`
(src/utils/wait_util.py lines 148-157): no `link_text`, no `partial_link_text`. -/
def clickableByTable : List (String × By) :=
  [("id", By.id), ("xpath", By.xpath), ("css_selector", By.cssSelector),
   ("class_name", By.className), ("tag_name", By.tagName), ("name", By.name)]

/-- The lookup `by_mapping.get(by.lower(), By.XPATH)` in `WaitUtil.wait_for_clickable`. -/
def clickableByMapping (tag : String) : By := lookupBy clickableByTable (pyLower tag)

/-- The six-entry `by_mapping` dictionary of `WaitUtil.wait_for_element_to_disappear`
(src/utils/wait_util.py lines 115-124); same entries as `wait_for_clickable`'s. -/
def disappearByMapping (tag : String) : By := lookupBy clickableByTable (pyLower tag)

/-- The strategy tags that appear as keys of the full (eight-entry) table. -/
def supportedTags : List String := wuByTable.map Prod.fst

theorem lookupBy_not_mem (table : List (String × By)) (t : String)
    (h : t ∉ table.map Prod.fst) : lookupBy table t = By.xpath := by
  induction table with
  | nil => rfl
  | cons kv rest ih =>
    simp only [List.map_cons, List.mem_cons, not_or] at h
    simp only [lookupBy, if_neg h.1]
    exact ih h.2

/-- An element handle as observed at one driver query: its identity plus the
visibility (`is_displayed`) and enabledness (`is_enabled`) flags at the moment
of the query. -/
structure Elem where
  eid : Nat
  displayed : Bool
  enabled : Bool
deriving DecidableEq, Repr

/-- The outcome of one raw DOM query: an element, `NoSuchElementException`
(absent), or any other driver/session error. -/
inductive QueryRes where
  | found (e : Elem)
  | absent
  | error
deriving DecidableEq, Repr

/-- The external driver collaborator, as a time-indexed oracle.  `find t b loc`
is the answer to the DOM query `(b, loc)` issued at tick `t`; indexing by time
absorbs the effect of scrolls, refreshes and page rendering.  `scriptOk`,
`clickOk` and `jsClickOk` say whether `execute_script` recovery scrolls, native
clicks and JavaScript clicks succeed; `clearOk` and `sendKeysOk` say whether
`element.clear()` and `element.send_keys(...)` on a resolved element succeed
(either can raise, e.g. on a stale or non-interactable element); `url` is
`driver.current_url` (`none` = the property access raises). -/
structure Driver where
  find : Nat → By → String → QueryRes
  scriptOk : Nat → Bool
  clickOk : Nat → Elem → Bool
  jsClickOk : Nat → Elem → Bool
  clearOk : Nat → Elem → Bool
  sendKeysOk : Nat → Elem → Bool
  url : Nat → Option String

/-- The result of one `WebDriverWait(driver, ...).until(...)` call:
condition satisfied by `e` at tick `t`, `TimeoutException` at tick `t`, or a
non-timeout driver error propagating at tick `t`. -/
inductive StageRes where
  | ok (e : Elem) (t : Nat)
  | timeout (t : Nat)
  | exn (t : Nat)
deriving DecidableEq, Repr

/-- The tick at which a wait stage hands control back. -/
def StageRes.time : StageRes → Nat
  | .ok _ t => t
  | .timeout t => t
  | .exn t => t

/-- One `WebDriverWait(driver, T).until(EC...)` call with the default 0.5 s poll:
starting at tick `t`, poll the query once per tick for `fuel` ticks
(`fuel = secs T`).  `accept` is the expected condition on a found element
(visibility, clickability, or mere presence); elements failing `accept` and
`NoSuchElementException` keep the poll going; any other driver error
propagates out of `until` (selenium's waits ignore only not-found errors). -/
def wdPoll (step : Nat → QueryRes) (accept : Elem → Bool) : Nat → Nat → StageRes
  | t, 0 => .timeout t
  | t, fuel + 1 =>
    match step t with
    | .error => .exn t
    | .found e => if accept e then .ok e t else wdPoll step accept (t + 1) fuel
    | .absent => wdPoll step accept (t + 1) fuel

/-- Strategy 3 of `WaitUtil.wait_for_element` (src/utils/wait_util.py lines
66-95): manual polling until `end_time`.  Each iteration first checks
`time.time() < end_time`; a found, displayed element is returned; a found but
invisible element just waits out the 0.5 s poll sleep; an exception bumps
`attempts` and, every third failed attempt, additionally runs the recovery
scroll followed by `time.sleep(1)` (skipped when `execute_script` itself
fails), before the 0.5 s poll sleep.  `fuel` only bounds the recursion; it is
instantiated so that the `end_time` check, not fuel, terminates the loop. -/
def manualPoll (step : Nat → QueryRes) (scriptOk : Nat → Bool) (endT : Nat) :
    Nat → Nat → Nat → Option Elem × Nat
  | _, t, 0 => (none, t)
  | attempts, t, fuel + 1 =>
    if t < endT then
      match step t with
      | .found e =>
        if e.displayed then (some e, t)
        else manualPoll step scriptOk endT attempts (t + 1) fuel
      | _ =>
        if (attempts + 1) % 3 = 0 then
          manualPoll step scriptOk endT (attempts + 1)
            (t + (if scriptOk t then 3 else 1)) fuel
        else manualPoll step scriptOk endT (attempts + 1) (t + 1) fuel
    else (none, t)

/-- What a call to `WaitUtil.wait_for_element` does: returns an element, returns
`None`, or lets a non-timeout driver error escape. -/
inductive WOut where
  | ret (e : Option Elem)
  | exn
deriving DecidableEq, Repr

/-- The strategy token used by the manual-polling stage of
`WaitUtil.wait_for_element` (lines 72-77): an explicit re-dispatch on
`by.lower()` for xpath and id, falling back to the already computed
`selenium_by` otherwise. -/
def stage3By (tag : String) : By :=
  if pyLower tag = "xpath" then By.xpath
  else if pyLower tag = "id" then By.id
  else wuByMapping tag

/-- The staticmethod `WaitUtil.wait_for_element(driver, by, locator, timeout)` (src/utils/
wait_util.py lines 17-98), started at tick `t0`: Strategy 1 is a visibility
wait with the full `timeout`; on its timeout, Strategy 2 is a presence wait
with a fixed 10 s budget whose result is accepted only if `is_displayed()`;
otherwise Strategy 3 polls manually until `min(timeout, 15)` more seconds have
elapsed.  Returns the outcome and the tick at which the call returns. -/
def wait_for_element (d : Driver) (tag loc : String) (timeout t0 : Nat) :
    WOut × Nat :=
  match wdPoll (fun t => d.find t (wuByMapping tag) loc) (fun e => e.displayed)
      t0 (secs timeout) with
  | .ok e t => (.ret (some e), t)
  | .exn t => (.exn, t)
  | .timeout t1 =>
    match wdPoll (fun t => d.find t (wuByMapping tag) loc) (fun _ => true)
        t1 (secs 10) with
    | .ok e t =>
      if e.displayed then (.ret (some e), t)
      else
        match manualPoll (fun u => d.find u (stage3By tag) loc) d.scriptOk
            (t + secs (min timeout 15)) 0 t (secs (min timeout 15)) with
        | (r, tEnd) => (.ret r, tEnd)
    | .exn t => (.exn, t)
    | .timeout t2 =>
      match manualPoll (fun u => d.find u (stage3By tag) loc) d.scriptOk
          (t2 + secs (min timeout 15)) 0 t2 (secs (min timeout 15)) with
      | (r, tEnd) => (.ret r, tEnd)

/-- The staticmethod `WaitUtil.wait_for_clickable(driver, by, locator, timeout)` (src/utils/
wait_util.py lines 135-164): a single clickability wait; `TimeoutException`
becomes `None`, other driver errors escape. -/
def wait_for_clickable (d : Driver) (tag loc : String) (timeout t0 : Nat) :
    WOut × Nat :=
  match wdPoll (fun t => d.find t (clickableByMapping tag) loc)
      (fun e => e.displayed && e.enabled) t0 (secs timeout) with
  | .ok e t => (.ret (some e), t)
  | .timeout t => (.ret none, t)
  | .exn t => (.exn, t)

/-- The result of `BasePage.find_element`: the element (or `None`), the tick at
which the call returns, and whether `driver.refresh()` was executed on the way. -/
structure FindRes where
  elem : Option Elem
  endTime : Nat
  refreshed : Bool
deriving DecidableEq, Repr

/-- The assignment `wait_timeout = timeout or self.timeout` (src/pages/base_page.py line 68):
Python's `or` falls back to the page default when `timeout` is `None` or `0`. -/
def effTimeout (timeoutOpt : Option Nat) (pageTimeout : Nat) : Nat :=
  match timeoutOpt with
  | none => pageTimeout
  | some n => if n = 0 then pageTimeout else n

/-- The last-resort branch of `BasePage.find_element` (src/pages/base_page.py
lines 98-111): `driver.refresh()`, `time.sleep(2)`, then one 10 s visibility
wait; its success returns the element, any failure yields `None`
(`except: pass`). -/
def refresh_retry (d : Driver) (sBy : By) (loc : String) (t : Nat) : FindRes :=
  match wdPoll (fun u => d.find u sBy loc) (fun e => e.displayed)
      (t + secs 2) (secs 10) with
  | .ok e t' => ⟨some e, t', true⟩
  | .timeout t' => ⟨none, t', true⟩
  | .exn t' => ⟨none, t', true⟩

/-- The method `BasePage.find_element(by, locator, timeout, wait_for_clickable)`
(src/pages/base_page.py lines 57-111), started at tick `t0`.  Primary wait:
clickability or visibility with `wait_timeout`.  On `TimeoutException`: a 5 s
presence wait accepted only if `is_displayed()` (its own bare `except` silences
every error).  On any other error from the primary wait: fall through.  Every
non-returning path ends in the refresh-and-retry branch. -/
def find_element (d : Driver) (tag loc : String) (timeoutOpt : Option Nat)
    (pageTimeout : Nat) (waitClickable : Bool) (t0 : Nat) : FindRes :=
  match wdPoll (fun t => d.find t (convertToSeleniumBy tag) loc)
      (fun e => if waitClickable then e.displayed && e.enabled else e.displayed)
      t0 (secs (effTimeout timeoutOpt pageTimeout)) with
  | .ok e t => ⟨some e, t, false⟩
  | .exn t => refresh_retry d (convertToSeleniumBy tag) loc t
  | .timeout t1 =>
    match wdPoll (fun t => d.find t (convertToSeleniumBy tag) loc)
        (fun _ => true) t1 (secs 5) with
    | .ok e t =>
      if e.displayed then ⟨some e, t, false⟩
      else refresh_retry d (convertToSeleniumBy tag) loc t
    | .timeout t => refresh_retry d (convertToSeleniumBy tag) loc t
    | .exn t => refresh_retry d (convertToSeleniumBy tag) loc t

/-- The probe `BasePage.is_element_present(by, locator, timeout=5)` (src/pages/
base_page.py lines 207-217): `find_element(by, locator, timeout) is not None`. -/
def is_element_present (d : Driver) (tag loc : String) (timeout pageTimeout t0 : Nat) :
    Bool :=
  (find_element d tag loc (some timeout) pageTimeout false t0).elem.isSome

/-- The externally visible steps of one `BasePage.tap_element` call:
`find_element` invocations (resolve attempts, with their clickability mode and
timeout argument), the scroll-into-view script, native clicks and the
JavaScript fallback click. -/
inductive TapEv where
  | resolve (clickable : Bool) (timeoutOpt : Option Nat)
  | scrollIntoView
  | click
  | jsClick
deriving DecidableEq, Repr

/-- How a `BasePage.tap_element` call ends. -/
inductive TapOut where
  | clicked
  | jsClicked
  | raised
deriving DecidableEq, Repr

/-- Outcome, ordered event log and return tick of a `tap_element` call. -/
structure TapRes where
  out : TapOut
  events : List TapEv
  endTime : Nat
deriving DecidableEq, Repr

/-- The last-resort branch of `BasePage.tap_element` (src/pages/base_page.py
lines 156-168): one more `find_element(by, locator, 5)` (visible mode), a
JavaScript click on success, then `raise` if anything failed. -/
def tap_js_resort (d : Driver) (tag loc : String) (pageTimeout t : Nat) : TapRes :=
  match (find_element d tag loc (some 5) pageTimeout false t).elem with
  | some e =>
    if d.jsClickOk (find_element d tag loc (some 5) pageTimeout false t).endTime e then
      ⟨.jsClicked, [.resolve false (some 5), .jsClick],
        (find_element d tag loc (some 5) pageTimeout false t).endTime⟩
    else
      ⟨.raised, [.resolve false (some 5), .jsClick],
        (find_element d tag loc (some 5) pageTimeout false t).endTime⟩
  | none =>
    ⟨.raised, [.resolve false (some 5)],
      (find_element d tag loc (some 5) pageTimeout false t).endTime⟩

/-- The retry loop of `BasePage.tap_element` (src/pages/base_page.py lines
137-169), with `remaining` attempts left (`remaining = max_retries - attempt`).
Each attempt resolves in clickable mode; on success it scrolls into view,
sleeps 0.5 s and clicks; a missing element or a failed click is caught, and on
the final attempt triggers the JavaScript last resort before the raise, while
earlier attempts sleep 1 s and retry. -/
def tap_loop (d : Driver) (tag loc : String) (timeoutOpt : Option Nat)
    (pageTimeout : Nat) : Nat → Nat → TapRes
  | 0, t => ⟨.raised, [], t⟩
  | remaining + 1, t =>
    match (find_element d tag loc timeoutOpt pageTimeout true t).elem with
    | some e =>
      if d.clickOk ((find_element d tag loc timeoutOpt pageTimeout true t).endTime + 1) e then
        ⟨.clicked, [.resolve true timeoutOpt, .scrollIntoView, .click],
          (find_element d tag loc timeoutOpt pageTimeout true t).endTime + 1⟩
      else
        if remaining = 0 then
          match tap_js_resort d tag loc pageTimeout
              ((find_element d tag loc timeoutOpt pageTimeout true t).endTime + 1) with
          | ⟨o, evs, tEnd⟩ =>
            ⟨o, [.resolve true timeoutOpt, .scrollIntoView, .click] ++ evs, tEnd⟩
        else
          match tap_loop d tag loc timeoutOpt pageTimeout remaining
              ((find_element d tag loc timeoutOpt pageTimeout true t).endTime + 1 + secs 1) with
          | ⟨o, evs, tEnd⟩ =>
            ⟨o, [.resolve true timeoutOpt, .scrollIntoView, .click] ++ evs, tEnd⟩
    | none =>
      if remaining = 0 then
        match tap_js_resort d tag loc pageTimeout
            (find_element d tag loc timeoutOpt pageTimeout true t).endTime with
        | ⟨o, evs, tEnd⟩ => ⟨o, [.resolve true timeoutOpt] ++ evs, tEnd⟩
      else
        match tap_loop d tag loc timeoutOpt pageTimeout remaining
            ((find_element d tag loc timeoutOpt pageTimeout true t).endTime + secs 1) with
        | ⟨o, evs, tEnd⟩ => ⟨o, [.resolve true timeoutOpt] ++ evs, tEnd⟩

/-- The method `BasePage.tap_element(by, locator, timeout)` (src/pages/base_page.py lines
127-169): the retry loop with `max_retries = 3`. -/
def tap_element (d : Driver) (tag loc : String) (timeoutOpt : Option Nat)
    (pageTimeout t0 : Nat) : TapRes :=
  tap_loop d tag loc timeoutOpt pageTimeout 3 t0

/-- How a text-entry flow ends: text typed into the element found by `loc`,
a flow that continues because the page is already a hotels page, a flow that
continues with no input at all, or a raised exception. -/
inductive TypeOut where
  | typedAt (loc : String)
  | continuedHotelsPage
  | continuedNoInput
  | raised
deriving DecidableEq, Repr

/-- The method `BasePage.send_text(by, locator, text, timeout)` (src/pages/base_page.py
lines 171-189): resolve via `find_element`; on success `element.clear()` then
`element.send_keys(text)` — both are uncaught driver calls (lines 184-185), so
an error from either propagates out of `send_text` even though resolution
succeeded; a failed resolution raises explicitly (line 189). -/
def send_text (d : Driver) (tag loc _text : String) (timeoutOpt : Option Nat)
    (pageTimeout t0 : Nat) : TypeOut × Nat :=
  match (find_element d tag loc timeoutOpt pageTimeout false t0).elem with
  | some e =>
    if d.clearOk (find_element d tag loc timeoutOpt pageTimeout false t0).endTime e then
      if d.sendKeysOk (find_element d tag loc timeoutOpt pageTimeout false t0).endTime e then
        (.typedAt loc, (find_element d tag loc timeoutOpt pageTimeout false t0).endTime)
      else (.raised, (find_element d tag loc timeoutOpt pageTimeout false t0).endTime)
    else (.raised, (find_element d tag loc timeoutOpt pageTimeout false t0).endTime)
  | none => (.raised, (find_element d tag loc timeoutOpt pageTimeout false t0).endTime)

/-- The nine candidate input locators of `HomePage.enter_search_text`
(src/pages/home_page.py lines 158-168). -/
def input_locators : List String :=
  ["//input[@type=\x27text\x27 and contains(@placeholder, \x27city\x27)]",
   "//input[@type=\x27text\x27 and contains(@placeholder, \x27City\x27)]",
   "//input[@type=\x27text\x27 and contains(@placeholder, \x27where\x27)]",
   "//input[@type=\x27text\x27 and contains(@placeholder, \x27Where\x27)]",
   "//input[@type=\x27text\x27 and contains(@placeholder, \x27destination\x27)]",
   "//input[@type=\x27text\x27]",
   "//input[contains(@id, \x27city\x27)]",
   "//input[contains(@name, \x27city\x27)]",
   "//textarea[contains(@placeholder, \x27city\x27)]"]

/-- The membership test `"hotels" in current_url.lower()` of Python:
`splitOn` yields more than one piece exactly when the needle occurs. -/
def urlMentionsHotels (u : String) : Bool :=
  ((pyLower u).splitOn "hotels").length ≥ 2

/-- The body of `HomePage.enter_search_text` (src/pages/home_page.py lines
149-199) over a remaining list of candidate input locators.  Each candidate is
resolved by `WaitUtil.wait_for_element(driver, 'xpath', locator, 8)`; a found
element additionally re-checked with `is_displayed() and is_enabled()` gets
`clear()` and `send_keys(text)` (then `time.sleep(3)`); here, unlike in
`send_text`, those two calls sit *inside* the per-candidate `try`, so every
failure, including a raised driver error, is caught and the loop continues.
After the loop: if `driver.current_url` mentions hotels the flow returns
normally, and even when the url access raises (or no input exists) the method
only logs a warning and returns. -/
def est_loop (d : Driver) : List String → Nat → TypeOut × Nat
  | [], t =>
    match d.url t with
    | some u =>
      if urlMentionsHotels u then (.continuedHotelsPage, t)
      else (.continuedNoInput, t)
    | none => (.continuedNoInput, t)
  | loc :: rest, t =>
    match wait_for_element d "xpath" loc 8 t with
    | (.ret (some e), t') =>
      if e.displayed && e.enabled then
        if d.clearOk t' e && d.sendKeysOk t' e then (.typedAt loc, t' + secs 3)
        else est_loop d rest t'
      else est_loop d rest t'
    | (.ret none, t') => est_loop d rest t'
    | (.exn, t') => est_loop d rest t'

/-- The flow `HomePage.enter_search_text(text)` started at tick `t0` (the `text`
argument only feeds `send_keys`, which has no bearing on control flow). -/
def enter_search_text (d : Driver) (t0 : Nat) : TypeOut × Nat :=
  est_loop d input_locators t0

/-- The per-page candidate-locator fallback loop (`CandidateLocatorChain.
resolveFirst`), as written in `SearchPage.get_search_results` (src/pages/
search_result.py lines 71-82) and `HomePage.tap_hotels_tab` (src/pages/
home_page.py lines 42-58): consult the candidates in order, delegating each to
the resolver (`resolve loc = none` covers both a `None` result and a caught
exception, which `continue` the loop identically); stop at the first success.
Returns the outcome together with the ordered list of candidates actually
consulted (one resolver call each). -/
def resolveFirst (resolve : String → Option Elem) :
    List String → Option Elem × List String
  | [] => (none, [])
  | loc :: rest =>
    match resolve loc with
    | some e => (some e, [loc])
    | none =>
      match resolveFirst resolve rest with
      | (r, tried) => (r, loc :: tried)

/-! ### Helper lemmas about the polling primitives -/

theorem wdPoll_time_le (step : Nat → QueryRes) (accept : Elem → Bool) :
    ∀ fuel t, (wdPoll step accept t fuel).time ≤ t + fuel := by
  intro fuel
  induction fuel with
  | zero => intro t; simp [wdPoll, StageRes.time]
  | succ n ih =>
    intro t
    simp only [wdPoll]
    cases step t with
    | error => simp [StageRes.time]
    | absent => exact le_trans (ih (t + 1)) (by omega)
    | found e =>
      by_cases h : accept e
      · simp [h, StageRes.time]
      · simp only [h, if_false]
        exact le_trans (ih (t + 1)) (by omega)

theorem wdPoll_ok_accept (step : Nat → QueryRes) (accept : Elem → Bool) :
    ∀ fuel t e t', wdPoll step accept t fuel = .ok e t' → accept e = true := by
  intro fuel
  induction fuel with
  | zero => intro t e t' h; simp [wdPoll] at h
  | succ n ih =>
    intro t e t' h
    simp only [wdPoll] at h
    cases hs : step t with
    | error => rw [hs] at h; simp at h
    | absent => rw [hs] at h; exact ih (t + 1) e t' h
    | found e' =>
      rw [hs] at h
      by_cases ha : accept e'
      · simp only [ha, if_true] at h
        cases h
        exact ha
      · simp only [ha, if_false] at h
        exact ih (t + 1) e t' h

theorem wdPoll_absent (step : Nat → QueryRes) (accept : Elem → Bool)
    (h : ∀ u, step u = .absent) :
    ∀ fuel t, wdPoll step accept t fuel = .timeout (t + fuel) := by
  intro fuel
  induction fuel with
  | zero => intro t; simp [wdPoll]
  | succ n ih =>
    intro t
    simp only [wdPoll, h t]
    rw [ih (t + 1)]
    congr 1
    omega

theorem manualPoll_fst_displayed (step : Nat → QueryRes) (scriptOk : Nat → Bool)
    (endT : Nat) :
    ∀ fuel attempts t e t',
      manualPoll step scriptOk endT attempts t fuel = (some e, t') →
      e.displayed = true := by
  intro fuel
  induction fuel with
  | zero => intro a t e t' h; simp [manualPoll] at h
  | succ n ih =>
    intro a t e t' h
    simp only [manualPoll] at h
    by_cases ht : t < endT
    · simp only [ht, if_true] at h
      cases hs : step t with
      | found e' =>
        rw [hs] at h
        by_cases hd : e'.displayed
        · simp only [hd, if_true] at h
          cases h
          exact hd
        · simp only [hd, if_false] at h
          exact ih a (t + 1) e t' h
      | absent =>
        rw [hs] at h
        by_cases hm : (a + 1) % 3 = 0
        · simp only [hm, if_true] at h
          exact ih (a + 1) _ e t' h
        · simp only [hm, if_false] at h
          exact ih (a + 1) (t + 1) e t' h
      | error =>
        rw [hs] at h
        by_cases hm : (a + 1) % 3 = 0
        · simp only [hm, if_true] at h
          exact ih (a + 1) _ e t' h
        · simp only [hm, if_false] at h
          exact ih (a + 1) (t + 1) e t' h
    · simp only [ht, if_false] at h
      cases h

theorem manualPoll_time_le (step : Nat → QueryRes) (scriptOk : Nat → Bool)
    (endT : Nat) :
    ∀ fuel attempts t, t ≤ endT + 2 →
      (manualPoll step scriptOk endT attempts t fuel).2 ≤ endT + 2 := by
  intro fuel
  induction fuel with
  | zero => intro a t ht; simpa [manualPoll] using ht
  | succ n ih =>
    intro a t ht
    simp only [manualPoll]
    by_cases hlt : t < endT
    · simp only [hlt, if_true]
      cases step t with
      | found e =>
        by_cases hd : e.displayed
        · simp [hd]; omega
        · simp only [hd, if_false]
          exact ih a (t + 1) (by omega)
      | absent =>
        by_cases hm : (a + 1) % 3 = 0
        · simp only [hm, if_true]
          by_cases hso : scriptOk t
          · simp only [hso, if_true]
            exact ih (a + 1) (t + 3) (by omega)
          · simp only [hso, if_false]
            exact ih (a + 1) (t + 1) (by omega)
        · simp only [hm, if_false]
          exact ih (a + 1) (t + 1) (by omega)
      | error =>
        by_cases hm : (a + 1) % 3 = 0
        · simp only [hm, if_true]
          by_cases hso : scriptOk t
          · simp only [hso, if_true]
            exact ih (a + 1) (t + 3) (by omega)
          · simp only [hso, if_false]
            exact ih (a + 1) (t + 1) (by omega)
        · simp only [hm, if_false]
          exact ih (a + 1) (t + 1) (by omega)
    · simpa [hlt] using ht

theorem manualPoll_absent (step : Nat → QueryRes) (scriptOk : Nat → Bool)
    (endT : Nat) (h : ∀ u, step u = .absent) :
    ∀ fuel attempts t,
      (manualPoll step scriptOk endT attempts t fuel).1 = none := by
  intro fuel
  induction fuel with
  | zero => intro a t; simp [manualPoll]
  | succ n ih =>
    intro a t
    simp only [manualPoll, h t]
    by_cases hlt : t < endT
    · simp only [hlt, if_true]
      by_cases hm : (a + 1) % 3 = 0
      · simp only [hm, if_true]
        exact ih (a + 1) _
      · simp only [hm, if_false]
        exact ih (a + 1) (t + 1)
    · simp [hlt]

theorem wait_for_element_absent_fst (d : Driver) (tag loc : String)
    (timeout t0 : Nat) (h : ∀ t b, d.find t b loc = .absent) :
    (wait_for_element d tag loc timeout t0).1 = .ret none := by
  have hstep : ∀ u, (fun t => d.find t (wuByMapping tag) loc) u = .absent :=
    fun u => h u _
  have hstep3 : ∀ u, (fun u => d.find u (stage3By tag) loc) u = .absent :=
    fun u => h u _
  simp only [wait_for_element, wdPoll_absent _ _ hstep]
  have hm := manualPoll_absent (fun u => d.find u (stage3By tag) loc) d.scriptOk
    (t0 + secs timeout + secs 10 + secs (min timeout 15)) hstep3
    (secs (min timeout 15)) 0 (t0 + secs timeout + secs 10)
  cases hmp : manualPoll (fun u => d.find u (stage3By tag) loc) d.scriptOk
      (t0 + secs timeout + secs 10 + secs (min timeout 15)) 0
      (t0 + secs timeout + secs 10) (secs (min timeout 15)) with
  | mk r tEnd =>
    rw [hmp] at hm
    simp at hm
    subst hm
    simp [hmp]

theorem find_element_absent_elem (d : Driver) (tag loc : String)
    (timeoutOpt : Option Nat) (pageTimeout : Nat) (waitClickable : Bool)
    (t0 : Nat) (h : ∀ t b, d.find t b loc = .absent) :
    (find_element d tag loc timeoutOpt pageTimeout waitClickable t0).elem = none := by
  have hstep : ∀ u, (fun t => d.find t (convertToSeleniumBy tag) loc) u = .absent :=
    fun u => h u _
  simp [find_element, refresh_retry, wdPoll_absent _ _ hstep]

theorem refresh_retry_refreshed (d : Driver) (sBy : By) (loc : String) (t : Nat) :
    (refresh_retry d sBy loc t).refreshed = true := by
  simp only [refresh_retry]
  cases wdPoll (fun u => d.find u sBy loc) (fun e => e.displayed)
      (t + secs 2) (secs 10) <;> rfl

/-! ### Concrete drivers used as witnesses and counterexamples -/

/-- A driver whose every DOM query answers `NoSuchElementException`, whose
recovery scrolls and element interactions succeed, and whose `current_url`
access raises. -/
def absentDriver : Driver :=
  ⟨fun _ _ _ => .absent, fun _ => true, fun _ _ => true, fun _ _ => true,
   fun _ _ => true, fun _ _ => true, fun _ => none⟩

/-- A driver whose every DOM query raises a non-timeout driver error and whose
every other capability fails as well. -/
def errorDriver : Driver :=
  ⟨fun _ _ _ => .error, fun _ => false, fun _ _ => false, fun _ _ => false,
   fun _ _ => false, fun _ _ => false, fun _ => none⟩

/-- A displayed, enabled element and a driver that always yields it. -/
def visElem : Elem := ⟨7, true, true⟩

/-- A driver that answers every query with the displayed element `visElem` and
whose every interaction succeeds. -/
def foundDriver : Driver :=
  ⟨fun _ _ _ => .found visElem, fun _ => true, fun _ _ => true, fun _ _ => true,
   fun _ _ => true, fun _ _ => true, fun _ => none⟩

/-- A driver that resolves every query to the displayed element `visElem` but
whose `element.clear()` calls always raise (as on a stale or non-interactable
field). -/
def staleFieldDriver : Driver :=
  ⟨fun _ _ _ => .found visElem, fun _ => true, fun _ _ => true, fun _ _ => true,
   fun _ _ => false, fun _ _ => true, fun _ => none⟩

/-! ### Claim theorems -/

/-- C5, counterexample: the claim says all *nine* supported strategy tags
(including `accessibility_id`, listed in the spec's LocatorStrategy enum) map
to their own driver tokens.  But the code's `by_mapping` tables have only
eight entries; `accessibility_id` is not among them, so it translates to the
xpath *default* token — the same token as the tag `xpath` and as any
misspelled tag — not to a dedicated token of its own. -/
theorem translate_nine_tags_refuted :
    wuByMapping "accessibility_id" = By.xpath ∧
    convertToSeleniumBy "accessibility_id" = By.xpath ∧
    wuByMapping "accessibility_id" = wuByMapping "xpath" ∧
    wuByMapping "accessibility_id" = wuByMapping "not_a_real_strategy" := by
  decide

/-- C5 (amended): the strategy translation used by `WaitUtil.wait_for_element`
and `BasePage._convert_to_selenium_by` is a total pure function (the same one
in both places); the *eight* tags actually present in the table map to their
own driver tokens case-insensitively, and every other tag — including the
spec's ninth tag `accessibility_id` — maps to the hard-coded xpath default
instead of failing. -/
theorem translate_total_with_default :
    (∀ s : String, wuByMapping s = convertToSeleniumBy s) ∧
    (∀ s : String, pyLower s ∉ supportedTags → wuByMapping s = By.xpath) ∧
    wuByMapping "id" = By.id ∧ wuByMapping "ID" = By.id ∧
    wuByMapping "xpath" = By.xpath ∧ wuByMapping "XPath" = By.xpath ∧
    wuByMapping "css_selector" = By.cssSelector ∧
    wuByMapping "CSS_Selector" = By.cssSelector ∧
    wuByMapping "class_name" = By.className ∧
    wuByMapping "Class_Name" = By.className ∧
    wuByMapping "tag_name" = By.tagName ∧ wuByMapping "TAG_NAME" = By.tagName ∧
    wuByMapping "name" = By.name ∧ wuByMapping "NAME" = By.name ∧
    wuByMapping "link_text" = By.linkText ∧
    wuByMapping "Link_Text" = By.linkText ∧
    wuByMapping "partial_link_text" = By.partialLinkText ∧
    wuByMapping "PARTIAL_link_text" = By.partialLinkText ∧
    wuByMapping "accessibility_id" = By.xpath := by
  refine ⟨fun s => rfl, fun s h => lookupBy_not_mem _ _ h, ?_⟩
  decide

/-- C5, witness: the default branch of the amended theorem applied to a
concrete unrecognized tag. -/
theorem translate_total_with_default_witness :
    wuByMapping "totally_bogus_tag" = By.xpath :=
  translate_total_with_default.2.1 "totally_bogus_tag" (by decide)

/-- C10: the translation tables are not identical across resolver operations:
the six-entry tables of `wait_for_clickable` and
`wait_for_element_to_disappear` send `link_text` and `partial_link_text` to
the xpath default, while the eight-entry tables of `wait_for_element` and
`_convert_to_selenium_by` send the same tags to their dedicated link-text
tokens. -/
theorem translation_tables_differ :
    clickableByMapping "link_text" = By.xpath ∧
    clickableByMapping "partial_link_text" = By.xpath ∧
    disappearByMapping "link_text" = By.xpath ∧
    disappearByMapping "partial_link_text" = By.xpath ∧
    wuByMapping "link_text" = By.linkText ∧
    wuByMapping "partial_link_text" = By.partialLinkText ∧
    convertToSeleniumBy "link_text" = By.linkText ∧
    convertToSeleniumBy "partial_link_text" = By.partialLinkText := by
  decide

/-- C1: over a chain `pre ++ target :: post` in which every candidate of `pre`
fails and `target` resolves to `e`, the fallback loop consults exactly the
first `pre.length + 1` candidates (`pre ++ [target]`, i.e. strictly in chain
order, one resolver call each, none skipped or repeated, `k = pre.length + 1`
attempts in total), stops at the first success, and returns that candidate's
element. -/
theorem resolveFirst_first_success (resolve : String → Option Elem)
    (pre : List String) (target : String) (post : List String) (e : Elem)
    (hpre : ∀ l ∈ pre, resolve l = none) (htgt : resolve target = some e) :
    resolveFirst resolve (pre ++ target :: post) = (some e, pre ++ [target]) := by
  induction pre with
  | nil => simp [resolveFirst, htgt]
  | cons a rest ih =>
    have ha : resolve a = none := hpre a (by simp)
    have ih' := ih fun l hl => hpre l (by simp [hl])
    simp only [List.cons_append, resolveFirst, ha, List.append_eq]
    rw [ih']

/-- C1, witness: a three-candidate chain whose second candidate is the first
to resolve — exactly two attempts, in order, returning the second candidate's
element. -/
theorem resolveFirst_first_success_witness :
    resolveFirst (fun l => if l = "b" then some visElem else none)
      ["a", "b", "c"] = (some visElem, ["a", "b"]) :=
  resolveFirst_first_success (fun l => if l = "b" then some visElem else none)
    ["a"] "b" ["c"] visElem
    (by intro l hl; simp only [List.mem_singleton] at hl; subst hl; decide)
    (by decide)

/-- C6: the fallback loop applied to an empty candidate chain returns the
not-found outcome at once, with an empty list of consulted candidates — no
resolver call, hence no driver query, is issued. -/
theorem resolveFirst_empty_chain (resolve : String → Option Elem) :
    resolveFirst resolve [] = (none, []) := rfl

theorem refresh_retry_elem_displayed (d : Driver) (sBy : By) (loc : String)
    (t : Nat) (e : Elem) (h : (refresh_retry d sBy loc t).elem = some e) :
    e.displayed = true := by
  simp only [refresh_retry] at h
  cases hw : wdPoll (fun u => d.find u sBy loc) (fun e => e.displayed)
      (t + secs 2) (secs 10) with
  | ok e' t' =>
    rw [hw] at h
    simp only at h
    cases h
    exact wdPoll_ok_accept _ _ _ _ _ _ hw
  | timeout t' => rw [hw] at h; simp at h
  | exn t' => rw [hw] at h; simp at h

/-- C2: in visible-only mode no invisible element is ever returned.  Part one:
whenever `WaitUtil.wait_for_element` returns an element, the visibility flag
observed by the check that accepted it — in whichever of the three stages
(visibility wait, presence fallback with its `is_displayed()` re-check, manual
polling with its `is_displayed()` guard) that was — is true.  Part two: the
same for `BasePage.find_element` with `wait_for_clickable=False` across its
stages (visibility wait, presence fallback, post-refresh visibility wait). -/
theorem visible_mode_never_invisible :
    (∀ (d : Driver) (tag loc : String) (timeout t0 : Nat) (e : Elem) (t' : Nat),
        wait_for_element d tag loc timeout t0 = (.ret (some e), t') →
        e.displayed = true) ∧
    (∀ (d : Driver) (tag loc : String) (timeoutOpt : Option Nat)
        (pageTimeout t0 : Nat) (e : Elem),
        (find_element d tag loc timeoutOpt pageTimeout false t0).elem = some e →
        e.displayed = true) := by
  constructor
  · intro d tag loc timeout t0 e t' h
    simp only [wait_for_element] at h
    cases h1 : wdPoll (fun t => d.find t (wuByMapping tag) loc)
        (fun e => e.displayed) t0 (secs timeout) with
    | ok e1 t1 =>
      simp only [h1, Prod.mk.injEq, WOut.ret.injEq, Option.some.injEq] at h
      obtain ⟨rfl, -⟩ := h
      exact wdPoll_ok_accept _ _ _ _ _ _ h1
    | exn t1 => simp [h1] at h
    | timeout t1 =>
      simp only [h1] at h
      cases h2 : wdPoll (fun t => d.find t (wuByMapping tag) loc)
          (fun _ => true) t1 (secs 10) with
      | ok e2 t2 =>
        simp only [h2] at h
        by_cases hd : e2.displayed
        · simp only [hd, if_true, Prod.mk.injEq, WOut.ret.injEq,
            Option.some.injEq] at h
          obtain ⟨rfl, -⟩ := h
          exact hd
        · simp only [hd, Bool.false_eq_true, if_false] at h
          cases hm : manualPoll (fun u => d.find u (stage3By tag) loc)
              d.scriptOk (t2 + secs (min timeout 15)) 0 t2
              (secs (min timeout 15)) with
          | mk r tEnd =>
            simp only [hm, Prod.mk.injEq, WOut.ret.injEq] at h
            obtain ⟨rfl, -⟩ := h
            exact manualPoll_fst_displayed _ _ _ _ _ _ _ _ hm
      | exn t2 => simp [h2] at h
      | timeout t2 =>
        simp only [h2] at h
        cases hm : manualPoll (fun u => d.find u (stage3By tag) loc)
            d.scriptOk (t2 + secs (min timeout 15)) 0 t2
            (secs (min timeout 15)) with
        | mk r tEnd =>
          simp only [hm, Prod.mk.injEq, WOut.ret.injEq] at h
          obtain ⟨rfl, -⟩ := h
          exact manualPoll_fst_displayed _ _ _ _ _ _ _ _ hm
  · intro d tag loc timeoutOpt pageTimeout t0 e h
    simp only [find_element] at h
    cases h1 : wdPoll (fun t => d.find t (convertToSeleniumBy tag) loc)
        (fun e => if false then e.displayed && e.enabled else e.displayed)
        t0 (secs (effTimeout timeoutOpt pageTimeout)) with
    | ok e1 t1 =>
      simp only [h1, Option.some.injEq] at h
      subst h
      have := wdPoll_ok_accept _ _ _ _ _ _ h1
      simpa using this
    | exn t1 =>
      simp only [h1] at h
      exact refresh_retry_elem_displayed _ _ _ _ _ h
    | timeout t1 =>
      simp only [h1] at h
      cases h2 : wdPoll (fun t => d.find t (convertToSeleniumBy tag) loc)
          (fun _ => true) t1 (secs 5) with
      | ok e2 t2 =>
        simp only [h2] at h
        by_cases hd : e2.displayed
        · simp only [hd, if_true, Option.some.injEq] at h
          subst h
          exact hd
        · simp only [hd, Bool.false_eq_true, if_false] at h
          exact refresh_retry_elem_displayed _ _ _ _ _ h
      | timeout t2 =>
        simp only [h2] at h
        exact refresh_retry_elem_displayed _ _ _ _ _ h
      | exn t2 =>
        simp only [h2] at h
        exact refresh_retry_elem_displayed _ _ _ _ _ h

/-- C2, witness: a driver that always yields the displayed element `visElem`
makes both resolvers return it, and its visibility flag is indeed true. -/
theorem visible_mode_never_invisible_witness :
    visElem.displayed = true ∧ visElem.displayed = true :=
  ⟨visible_mode_never_invisible.1 foundDriver "xpath" "x" 1 0 visElem 0
      (by decide),
   visible_mode_never_invisible.2 foundDriver "xpath" "x" none 1 0 visElem
      (by decide)⟩

/-- C3, counterexample: with a driver that never finds the element (and whose
recovery scroll succeeds), `wait_for_element` with `timeout = 2 s` returns at
tick 29, i.e. strictly later than the sum of its three stage budgets
(`2 s + 10 s + min(2, 15) s = 14 s = 28` ticks): the manual-polling loop only
checks `time.time() < end_time` *before* an iteration, so its final iteration
(recovery `sleep(1)` plus the 0.5 s poll sleep) runs past the stage-3 deadline. -/
theorem wait_for_element_exceeds_budgets :
    (wait_for_element absentDriver "xpath" "x" 2 0).2 = 29 ∧
    0 + secs 2 + secs 10 + secs (min 2 15) = 28 := by
  decide

/-- C3 (amended): a single `wait_for_element` call returns — with an element,
`None`, or a propagated driver error — no later than the sum of the three
stage budgets (primary `timeout`, fixed 10 s presence fallback,
`min(timeout, 15)` s of manual polling) *plus one final manual-poll iteration*,
which can overshoot the stage-3 deadline by up to the 1 s recovery sleep
(2 ticks); within that slack the call always terminates. -/
theorem wait_for_element_time_bound (d : Driver) (tag loc : String)
    (timeout t0 : Nat) :
    (wait_for_element d tag loc timeout t0).2 ≤
      t0 + secs timeout + secs 10 + secs (min timeout 15) + 2 := by
  have H1 := wdPoll_time_le (fun t => d.find t (wuByMapping tag) loc)
    (fun e => e.displayed) (secs timeout) t0
  cases h1 : wdPoll (fun t => d.find t (wuByMapping tag) loc)
      (fun e => e.displayed) t0 (secs timeout) with
  | ok e1 t1 =>
    rw [h1] at H1
    simp only [StageRes.time] at H1
    simp only [wait_for_element, h1]
    omega
  | exn t1 =>
    rw [h1] at H1
    simp only [StageRes.time] at H1
    simp only [wait_for_element, h1]
    omega
  | timeout t1 =>
    rw [h1] at H1
    simp only [StageRes.time] at H1
    have H2 := wdPoll_time_le (fun t => d.find t (wuByMapping tag) loc)
      (fun _ => true) (secs 10) t1
    cases h2 : wdPoll (fun t => d.find t (wuByMapping tag) loc)
        (fun _ => true) t1 (secs 10) with
    | ok e2 t2 =>
      rw [h2] at H2
      simp only [StageRes.time] at H2
      by_cases hd : e2.displayed
      · simp only [wait_for_element, h1, h2, hd, if_true]
        omega
      · have HM := manualPoll_time_le (fun u => d.find u (stage3By tag) loc)
          d.scriptOk (t2 + secs (min timeout 15)) (secs (min timeout 15)) 0 t2
          (by omega)
        cases hm : manualPoll (fun u => d.find u (stage3By tag) loc)
            d.scriptOk (t2 + secs (min timeout 15)) 0 t2
            (secs (min timeout 15)) with
        | mk r tEnd =>
          rw [hm] at HM
          simp only at HM
          simp only [wait_for_element, h1, h2, hd, Bool.false_eq_true, if_false,
            hm]
          omega
    | exn t2 =>
      rw [h2] at H2
      simp only [StageRes.time] at H2
      simp only [wait_for_element, h1, h2]
      omega
    | timeout t2 =>
      rw [h2] at H2
      simp only [StageRes.time] at H2
      have HM := manualPoll_time_le (fun u => d.find u (stage3By tag) loc)
        d.scriptOk (t2 + secs (min timeout 15)) (secs (min timeout 15)) 0 t2
        (by omega)
      cases hm : manualPoll (fun u => d.find u (stage3By tag) loc)
          d.scriptOk (t2 + secs (min timeout 15)) 0 t2
          (secs (min timeout 15)) with
      | mk r tEnd =>
        rw [hm] at HM
        simp only at HM
        simp only [wait_for_element, h1, h2, hm]
        omega

/-- C7: `is_element_present` is a total boolean-valued function of the embedded
state — every driver behaviour, including raw driver errors at every query, is
absorbed by `find_element`'s exception handlers, so it cannot raise — and it is
true exactly when resolution produced an element.  The second part exercises
the error robustness concretely: under a driver whose every query raises, the
probe still returns `false` (for every tag, locator, page timeout and start
tick). -/
theorem is_element_present_total_bool :
    (∀ (d : Driver) (tag loc : String) (timeout pageTimeout t0 : Nat),
        is_element_present d tag loc timeout pageTimeout t0 = true ↔
        ∃ e, (find_element d tag loc (some timeout) pageTimeout false t0).elem
          = some e) ∧
    (∀ (tag loc : String) (pageTimeout t0 : Nat),
        is_element_present errorDriver tag loc 5 pageTimeout t0 = false) := by
  constructor
  · intro d tag loc timeout pageTimeout t0
    simp [is_element_present, Option.isSome_iff_exists]
  · intro tag loc pageTimeout t0
    rfl

/-- C9: failed resolution through `BasePage` reloads the page.  Part one:
whenever `find_element` returns `None`, the refresh side effect has happened
and the returned state is exactly that of the last-resort branch (refresh,
2 s settle, one more 10 s visibility wait).  Part two: consequently even a
mere presence probe (`is_element_present`, i.e. `find_element` with the
probe's short timeout) that answers `false` has refreshed the page. -/
theorem find_element_refresh_on_failure :
    (∀ (d : Driver) (tag loc : String) (timeoutOpt : Option Nat)
        (pageTimeout : Nat) (waitClickable : Bool) (t0 : Nat),
        (find_element d tag loc timeoutOpt pageTimeout waitClickable t0).elem
          = none →
        (find_element d tag loc timeoutOpt pageTimeout waitClickable t0).refreshed
          = true ∧
        ∃ t1, find_element d tag loc timeoutOpt pageTimeout waitClickable t0 =
          refresh_retry d (convertToSeleniumBy tag) loc t1) ∧
    (∀ (d : Driver) (tag loc : String) (timeout pageTimeout t0 : Nat),
        is_element_present d tag loc timeout pageTimeout t0 = false →
        (find_element d tag loc (some timeout) pageTimeout false t0).refreshed
          = true) := by
  have main : ∀ (d : Driver) (tag loc : String) (timeoutOpt : Option Nat)
      (pageTimeout : Nat) (waitClickable : Bool) (t0 : Nat),
      (find_element d tag loc timeoutOpt pageTimeout waitClickable t0).elem
        = none →
      ∃ t1, find_element d tag loc timeoutOpt pageTimeout waitClickable t0 =
        refresh_retry d (convertToSeleniumBy tag) loc t1 := by
    intro d tag loc timeoutOpt pageTimeout waitClickable t0 h
    simp only [find_element] at h ⊢
    cases h1 : wdPoll (fun t => d.find t (convertToSeleniumBy tag) loc)
        (fun e =>
          if waitClickable then e.displayed && e.enabled else e.displayed)
        t0 (secs (effTimeout timeoutOpt pageTimeout)) with
    | ok e1 t1 => simp [h1] at h
    | exn t1 => exact ⟨t1, by simp [h1]⟩
    | timeout t1 =>
      simp only [h1] at h ⊢
      cases h2 : wdPoll (fun t => d.find t (convertToSeleniumBy tag) loc)
          (fun _ => true) t1 (secs 5) with
      | ok e2 t2 =>
        simp only [h2] at h ⊢
        by_cases hd : e2.displayed
        · simp [hd] at h
        · simp only [hd, Bool.false_eq_true, if_false]
          exact ⟨t2, rfl⟩
      | timeout t2 => exact ⟨t2, by simp [h2]⟩
      | exn t2 => exact ⟨t2, by simp [h2]⟩
  constructor
  · intro d tag loc timeoutOpt pageTimeout waitClickable t0 h
    obtain ⟨t1, ht1⟩ := main d tag loc timeoutOpt pageTimeout waitClickable t0 h
    exact ⟨by rw [ht1]; exact refresh_retry_refreshed _ _ _ _, ⟨t1, ht1⟩⟩
  · intro d tag loc timeout pageTimeout t0 h
    have hnone :
        (find_element d tag loc (some timeout) pageTimeout false t0).elem
          = none := by
      simp only [is_element_present] at h
      cases hfe : (find_element d tag loc (some timeout) pageTimeout false
          t0).elem with
      | none => rfl
      | some e => rw [hfe] at h; simp at h
    obtain ⟨t1, ht1⟩ := main d tag loc (some timeout) pageTimeout false t0 hnone
    rw [ht1]
    exact refresh_retry_refreshed _ _ _ _

/-- C9, witness: under the always-absent driver a short probe fails, and the
failure has indeed refreshed the page and routed through the last-resort
branch. -/
theorem find_element_refresh_on_failure_witness :
    ((find_element absentDriver "xpath" "x" (some 1) 20 false 0).refreshed
        = true ∧
      ∃ t1, find_element absentDriver "xpath" "x" (some 1) 20 false 0 =
        refresh_retry absentDriver (convertToSeleniumBy "xpath") "x" t1) ∧
    (find_element absentDriver "xpath" "x" (some 5) 20 false 0).refreshed
      = true :=
  ⟨find_element_refresh_on_failure.1 absentDriver "xpath" "x" (some 1) 20 false
      0 (by decide),
   find_element_refresh_on_failure.2 absentDriver "xpath" "x" 5 20 0
      (by decide)⟩

/-- C4: on a target whose locator never resolves, `tap_element` performs
exactly its configured `max_retries = 3` resolve attempts (each one a
clickable-mode `find_element` call of the retry loop), then — after the final
retry and before the error is surfaced — attempts the JavaScript-click last
resort (whose own short visible-mode resolve also finds nothing, so no click
fires), and ends by raising: the event log is precisely three loop resolves
followed by the last-resort resolve, and the outcome is the raised error. -/
theorem tap_element_unresolved_retry_count (d : Driver) (tag loc : String)
    (timeoutOpt : Option Nat) (pageTimeout t0 : Nat)
    (h : ∀ t b, d.find t b loc = .absent) :
    (tap_element d tag loc timeoutOpt pageTimeout t0).out = .raised ∧
    (tap_element d tag loc timeoutOpt pageTimeout t0).events =
      [.resolve true timeoutOpt, .resolve true timeoutOpt,
       .resolve true timeoutOpt, .resolve false (some 5)] := by
  have fe : ∀ (o : Option Nat) (pT : Nat) (wc : Bool) (t : Nat),
      (find_element d tag loc o pT wc t).elem = none :=
    fun o pT wc t => find_element_absent_elem d tag loc o pT wc t h
  simp [tap_element, tap_loop, tap_js_resort, fe]

/-- C4, witness: the theorem applied to the always-absent driver. -/
theorem tap_element_unresolved_retry_count_witness :
    (tap_element absentDriver "xpath" "x" none 1 0).out = .raised ∧
    (tap_element absentDriver "xpath" "x" none 1 0).events =
      [.resolve true none, .resolve true none, .resolve true none,
       .resolve false (some 5)] :=
  tap_element_unresolved_retry_count absentDriver "xpath" "x" none 1 0
    (fun _ _ => rfl)

theorem est_loop_all_absent (d : Driver) (ls : List String)
    (h : ∀ l ∈ ls, ∀ t b, d.find t b l = .absent) :
    ∀ t, (est_loop d ls t).1 = .continuedHotelsPage ∨
      (est_loop d ls t).1 = .continuedNoInput := by
  induction ls with
  | nil =>
    intro t
    simp only [est_loop]
    cases d.url t with
    | none => exact Or.inr rfl
    | some u =>
      by_cases hu : urlMentionsHotels u
      · simp [hu]
      · simp [hu]
  | cons l rest ih =>
    intro t
    have hw := wait_for_element_absent_fst d "xpath" l 8 t
      (h l (by simp))
    have ih' := ih fun l' hl' => h l' (by simp [hl'])
    cases hwp : wait_for_element d "xpath" l 8 t with
    | mk w t' =>
      rw [hwp] at hw
      simp only at hw
      subst hw
      simpa only [est_loop, hwp] using ih' t'

/-- C8, counterexample: `send_text` can raise even though resolution returned
an element, so "raises if and only if resolution returned no element" is
false.  Under `staleFieldDriver`, resolution succeeds at once (the element is
found and displayed), but the subsequent `element.clear()` — an uncaught
driver call at src/pages/base_page.py line 184 — raises, and that error
propagates out of `send_text`. -/
theorem send_text_raises_despite_resolution :
    (send_text staleFieldDriver "xpath" "x" "Bangalore" (some 1) 20 0).1
      = .raised ∧
    (find_element staleFieldDriver "xpath" "x" (some 1) 20 false 0).elem
      = some visElem := by
  decide

/-- C8 (amended): the `type` operation's failure policy.  Part one:
`send_text` raises exactly when `find_element` resolved no element for its
target *or* resolution succeeded but the subsequent uncaught
`element.clear()` / `element.send_keys()` interaction failed (in particular a
failed resolution always raises).  Part two: the optional-target variant
`enter_search_text`, invoked when none of its nine candidate input locators
ever matches anything, returns normally — either because the current url
already names a hotels page or as the logged "continuing without input"
fall-through — and never raises. -/
theorem send_text_failure_policy :
    (∀ (d : Driver) (tag loc text : String) (timeoutOpt : Option Nat)
        (pageTimeout t0 : Nat),
        (send_text d tag loc text timeoutOpt pageTimeout t0).1 = .raised ↔
        ((find_element d tag loc timeoutOpt pageTimeout false t0).elem = none ∨
          ∃ e, (find_element d tag loc timeoutOpt pageTimeout false t0).elem
              = some e ∧
            (d.clearOk
                (find_element d tag loc timeoutOpt pageTimeout false t0).endTime
                e = false ∨
              d.sendKeysOk
                (find_element d tag loc timeoutOpt pageTimeout false t0).endTime
                e = false))) ∧
    (∀ (d : Driver) (t0 : Nat),
        (∀ t b l, l ∈ input_locators → d.find t b l = .absent) →
        (enter_search_text d t0).1 = .continuedHotelsPage ∨
        (enter_search_text d t0).1 = .continuedNoInput) := by
  constructor
  · intro d tag loc text timeoutOpt pageTimeout t0
    cases hfe : (find_element d tag loc timeoutOpt pageTimeout false t0).elem
      with
    | none => simp [send_text, hfe]
    | some e =>
      by_cases hc : d.clearOk
          (find_element d tag loc timeoutOpt pageTimeout false t0).endTime e
      · by_cases hk : d.sendKeysOk
            (find_element d tag loc timeoutOpt pageTimeout false t0).endTime e
        · simp [send_text, hfe, hc, hk]
        · simp [send_text, hfe, hc, hk]
      · simp [send_text, hfe, hc]
  · intro d t0 h
    exact est_loop_all_absent d input_locators
      (fun l hl t b => h t b l hl) t0

/-- C8, witness: part one at `staleFieldDriver`, where resolution succeeds but
`clear()` fails, so `send_text` raises; and part two under the always-absent
driver (whose url access raises, so the hotels-page shortcut is also
unavailable), where `enter_search_text` still returns normally. -/
theorem send_text_failure_policy_witness :
    (send_text staleFieldDriver "xpath" "x" "Bangalore" (some 1) 20 0).1
        = .raised ∧
    ((enter_search_text absentDriver 0).1 = .continuedHotelsPage ∨
      (enter_search_text absentDriver 0).1 = .continuedNoInput) :=
  ⟨(send_text_failure_policy.1 staleFieldDriver "xpath" "x" "Bangalore"
      (some 1) 20 0).mpr (Or.inr ⟨visElem, by decide, Or.inl (by decide)⟩),
   send_text_failure_policy.2 absentDriver 0 (fun _ _ _ _ => rfl)⟩

end AppiumSpec
